import Mathlib

/-!
Verification of the `bigquery_backup` cloud function
(`src/bigquery_backup/function.go`, package `bigquerybackup`).

The Go program is a single HTTP handler that exports one BigQuery table to
Cloud Storage.  Every remote interaction (dataset/table metadata fetch,
bucket attributes fetch, extract-job submission, job wait) and the raw JSON
decode are modelled by an environment record `Env` that fixes their results;
the logging sink is modelled as an explicit list of `LogEntry` threaded
through the functions, and the Go functions are translated one by one with
their control flow intact (including the error-shadowing in `waitForJob` and
`runExtractor`, and the nil-pointer dereference in `validateTable`).
-/

namespace BigQueryBackup

/-- Format and compression string constants from the Go `const` block. -/
def csvFormat : String := "CSV"

def jsonFormat : String := "JSON"

def avroFormat : String := "AVRO"

def parquetFormat : String := "PARQUET"

def gzipCompression : String := "GZIP"

def snappyCompression : String := "SNAPPY"

def zstdCompression : String := "ZSTD"

def deflateCompression : String := "DEFLATE"

/-- Go struct `backupParams`. -/
structure backupParams where
  projectID : String
  sourceDatasetID : String
  backupTableID : String
  storageBucket : String
  compressionType : String
  destinationFormat : String
deriving DecidableEq, Repr

/-- Go struct `postBodyParams` (the decoded JSON body). -/
structure postBodyParams where
  DatasetName : String
  TableName : String
  StorageBucket : String
  Format : String
  Compression : String
deriving DecidableEq, Repr

/-- Severity of a Cloud Logging entry (`logging.Info` / `logging.Error`). -/
inductive Severity where
  | info
  | error
deriving DecidableEq, Repr

/-- One entry written to the `bigquery-backup` logger. -/
structure LogEntry where
  sev : Severity
  msg : String
deriving DecidableEq, Repr

/-- The remote service interactions the handler can perform, in the order
they are recorded into a trace. -/
inductive RemoteCall where
  | datasetMetaCall
  | tableMetaCall
  | bucketAttrsCall
  | extractorRun
  | jobWait
deriving DecidableEq, Repr

/-- Result of `bigquery.DatasetMetadata` / `bigquery.TableMetadata`; only the
`FullID` field is read by the program. -/
structure metadataFullID where
  FullID : String
deriving DecidableEq, Repr

/-- Outcome of `job.Wait(ctx)`: the call itself errors, or it returns a
status whose `Err()` is non-nil, or the job completed without error. -/
inductive WaitOutcome where
  | waitErr (e : String)
  | statusErr (e : String)
  | success
deriving DecidableEq, Repr

/-- Fixed results of the remote calls and of the request decode for one
invocation of the handler. `today` is `time.Now().Format("2006-01-02")`. -/
structure Env where
  gcpProject : String
  decodeResult : Except String postBodyParams
  datasetMeta : Except String metadataFullID
  tableMeta : Except String metadataFullID
  storageClient : Except String Unit
  bucketAttrs : Except String Unit
  runResult : Except String String
  waitResult : WaitOutcome
  today : String
deriving Repr

/-- Go `fmt`'s `%v` rendering of an `error` value: `<nil>` for nil,
otherwise the error text. -/
def fmtErr : Option String → String
  | some e => e
  | none => "<nil>"

/-- `logInfo`: appends an Info entry to the `bigquery-backup` logger and
returns `nil` (the Go function always returns nil). -/
def logInfo (logs : List LogEntry) (msg : String) : List LogEntry × Option String :=
  (logs ++ [⟨Severity.info, msg⟩], none)

/-- `logError`: appends an Error entry to the `bigquery-backup` logger and
returns `nil` (the Go function always returns nil). -/
def logError (logs : List LogEntry) (msg : String) : List LogEntry × Option String :=
  (logs ++ [⟨Severity.error, msg⟩], none)

/-- Go `strings.TrimSpace`: the string with leading and trailing
whitespace removed. -/
def trimSpace (s : String) : String :=
  ⟨((s.data.dropWhile Char.isWhitespace).reverse.dropWhile Char.isWhitespace).reverse⟩

/-- `(bp *backupParams) setProjectID()`: reads `GCP_PROJECT`; errors when it
is empty or all whitespace, otherwise stores it in `bp.projectID`. -/
def setProjectID (bp : backupParams) (gcpProject : String) : backupParams × Option String :=
  if gcpProject = "" ∨ trimSpace gcpProject = "" then
    (bp, some "GCP_PROJECT environment variable is not set")
  else
    ({ bp with projectID := gcpProject }, none)

/-- `checkPostBody`: requires DatasetName, TableName, StorageBucket to be
non-empty, in that order, logging an error and returning false at the first
empty one. -/
def checkPostBody (pb : postBodyParams) (logs : List LogEntry) :
    Bool × Option String × List LogEntry :=
  if pb.DatasetName = "" then
    let r := logError logs "Missing DatasetName in Post Body"
    (false, r.2, r.1)
  else if pb.TableName = "" then
    let r := logError logs "Missing TableName in Post Body"
    (false, r.2, r.1)
  else if pb.StorageBucket = "" then
    let r := logError logs "Missing StorageBucket in Post Body"
    (false, r.2, r.1)
  else
    (true, none, logs)

/-- `(bp *backupParams) setBackupParams(pb)`: copies the decoded body fields
into the backup parameters. -/
def setBackupParams (bp : backupParams) (pb : postBodyParams) : backupParams :=
  { bp with
    sourceDatasetID := pb.DatasetName
    backupTableID := pb.TableName
    storageBucket := pb.StorageBucket
    destinationFormat := pb.Format
    compressionType := pb.Compression }

/-- `(bp *backupParams) handleSetup(r)`: decode the POST body, validate it
with `checkPostBody`, copy it into `bp`, and log the parameters.  Returns
`true` when an error occurred. -/
def handleSetup (bp : backupParams) (env : Env) (logs : List LogEntry) :
    backupParams × Bool × List LogEntry :=
  match env.decodeResult with
  | .error e =>
    let r := logError logs ("Failed to decode POST body: " ++ e)
    (bp, true, r.1)
  | .ok pb =>
    match checkPostBody pb logs with
    | (ok, err, logs) =>
      if ¬ok ∨ err.isSome then
        let r := logError logs ("Invalid POST body: " ++ fmtErr err)
        (bp, true, r.1)
      else
        let bp := setBackupParams bp pb
        let p := "Backup params: " ++ bp.projectID ++ ", " ++ bp.sourceDatasetID ++ ", "
          ++ bp.backupTableID ++ ", " ++ bp.storageBucket
        match logInfo logs p with
        | (logs, some e) =>
          let r := logError logs ("Failed to set backup params: " ++ fmtErr (some e))
          (bp, true, r.1)
        | (logs, none) => (bp, false, logs)

/-- `setCSVAndJSONCompression`: forces GZIP compression and logs the
resolved pair. -/
def setCSVAndJSONCompression (bp : backupParams) (logs : List LogEntry) :
    backupParams × List LogEntry × Option String :=
  let bp := { bp with compressionType := gzipCompression }
  let lv := "Backup format: " ++ bp.destinationFormat ++ ", Backup compression: "
    ++ bp.compressionType
  match logInfo logs lv with
  | (logs, some e) => (bp, logs, some e)
  | (logs, none) => (bp, logs, none)

/-- `setAvroParquetCompression`, with the Go control flow kept exactly: the
DEFLATE/SNAPPY test and the snappy-reset else-branch sit inside the
`compressionType == ""` branch, so a non-empty caller-supplied compression
is returned unchanged. -/
def setAvroParquetCompression (bp : backupParams) (logs : List LogEntry) :
    backupParams × List LogEntry × Option String :=
  if bp.compressionType = "" then
    let bp := { bp with compressionType := snappyCompression }
    let lv := "BigQuery Table will be Backup format: " ++ bp.destinationFormat
      ++ ", Backup compression: " ++ bp.compressionType
    match logInfo logs lv with
    | (logs, some e) => (bp, logs, some e)
    | (logs, none) =>
      if bp.compressionType = deflateCompression ∨ bp.compressionType = snappyCompression then
        let lv2 := "Backup format: " ++ bp.destinationFormat ++ ", Backup compression: "
          ++ bp.compressionType
        match logInfo logs lv2 with
        | (logs, some e) => (bp, logs, some e)
        | (logs, none) => (bp, logs, none)
      else
        ({ bp with compressionType := snappyCompression }, logs, none)
  else
    (bp, logs, none)

/-- Result of `checkBackupFormat`: the updated parameters, the log state,
and the Go return pair `(bool, error)`. -/
structure FormatResult where
  bp : backupParams
  logs : List LogEntry
  ok : Bool
  err : Option String
deriving Repr

/-- `(bp *backupParams) checkBackupFormat()`: switch on the destination
format; CSV/JSON force GZIP, AVRO/PARQUET go through
`setAvroParquetCompression`, anything else resolves to AVRO + SNAPPY. -/
def checkBackupFormat (bp : backupParams) (logs : List LogEntry) : FormatResult :=
  if bp.destinationFormat = csvFormat then
    match setCSVAndJSONCompression bp logs with
    | (bp, logs, some e) => ⟨bp, logs, false, some e⟩
    | (bp, logs, none) => ⟨bp, logs, true, none⟩
  else if bp.destinationFormat = jsonFormat then
    match setCSVAndJSONCompression bp logs with
    | (bp, logs, some e) => ⟨bp, logs, false, some e⟩
    | (bp, logs, none) => ⟨bp, logs, true, none⟩
  else if bp.destinationFormat = avroFormat then
    match setAvroParquetCompression bp logs with
    | (bp, logs, some e) => ⟨bp, logs, false, some e⟩
    | (bp, logs, none) => ⟨bp, logs, true, none⟩
  else if bp.destinationFormat = parquetFormat then
    match setAvroParquetCompression bp logs with
    | (bp, logs, some e) => ⟨bp, logs, false, some e⟩
    | (bp, logs, none) => ⟨bp, logs, true, none⟩
  else
    ⟨{ bp with destinationFormat := avroFormat, compressionType := snappyCompression },
      logs, true, none⟩

/-- `(bp *backupParams) validateDataset(ctx)`: fetch the dataset metadata
(recorded in the call trace) and require `FullID == projectID:datasetID`. -/
def validateDataset (bp : backupParams) (env : Env) (calls : List RemoteCall) :
    Bool × Option String × List RemoteCall :=
  let calls := calls ++ [RemoteCall.datasetMetaCall]
  match env.datasetMeta with
  | .error e => (false, some e, calls)
  | .ok md =>
    if md.FullID = bp.projectID ++ ":" ++ bp.sourceDatasetID then
      (true, none, calls)
    else
      (false, none, calls)

/-- `(bp *backupParams) validateTable(ctx)`: fetch the table metadata and
require `FullID == projectID:datasetID.tableID`.  The Go code prints
`md.FullID` before checking the fetch error, so a fetch error dereferences
a nil metadata pointer: that panic is modelled as `none`. -/
def validateTable (bp : backupParams) (env : Env) (calls : List RemoteCall) :
    Option (Bool × Option String) × List RemoteCall :=
  let calls := calls ++ [RemoteCall.tableMetaCall]
  match env.tableMeta with
  | .error _ => (none, calls)
  | .ok md =>
    if md.FullID = bp.projectID ++ ":" ++ bp.sourceDatasetID ++ "." ++ bp.backupTableID then
      (some (true, none), calls)
    else
      (some (false, none), calls)

/-- `(bp *backupParams) validateStorageBucket(ctx)`: create a storage client
and fetch the bucket attributes; any error fails the check. -/
def validateStorageBucket (env : Env) (calls : List RemoteCall) :
    Bool × Option String × List RemoteCall :=
  match env.storageClient with
  | .error e => (false, some e, calls)
  | .ok _ =>
    let calls := calls ++ [RemoteCall.bucketAttrsCall]
    match env.bucketAttrs with
    | .error e => (false, some e, calls)
    | .ok _ => (true, none, calls)

/-- `(bp *backupParams) validateParams(ctx)`: dataset, table, then bucket,
short-circuiting with a logged error at the first failure.  Returns `true`
when validation failed; `none` models the nil-metadata panic propagating
from `validateTable`. -/
def validateParams (bp : backupParams) (env : Env) (logs : List LogEntry)
    (calls : List RemoteCall) : Option Bool × List LogEntry × List RemoteCall :=
  match validateDataset bp env calls with
  | (validDataset, err, calls) =>
    if err.isSome ∨ ¬validDataset then
      let r := logError logs "Dataset does not exist or is not valid"
      (some true, r.1, calls)
    else
      match validateTable bp env calls with
      | (none, calls) => (none, logs, calls)
      | (some (validTable, err), calls) =>
        if err.isSome ∨ ¬validTable then
          let r := logError logs ("Table does not exist or is not valid: " ++ fmtErr err)
          (some true, r.1, calls)
        else
          match validateStorageBucket env calls with
          | (okB, errB, calls) =>
            if ¬okB ∨ errB.isSome then
              let r := logError logs "Problem validating storage bucket"
              (some true, r.1, calls)
            else
              (some false, logs, calls)

/-- The GCS reference built by `setupExtractor`: destination URI, format and
compression copied from the resolved parameters. -/
structure GCSReference where
  uri : String
  destinationFormat : String
  compression : String
deriving DecidableEq, Repr

/-- The extractor built by `setupExtractor`: source table coordinates, the
GCS reference, and `DisableHeader`. -/
structure Extractor where
  srcProjectID : String
  srcDatasetID : String
  srcTableID : String
  gcsRef : GCSReference
  disableHeader : Bool
deriving DecidableEq, Repr

/-- `setupExtractor(bp)`: builds
`gs://{bucket}/{dataset}/{table}.{today}/{table}-*.{lower(format)}` (the Go
code formats `backup = table.today` first and splices it in), points the
extractor at `projectID.dataset.table`, disables headers, and copies the
resolved format and compression onto the GCS reference. -/
def setupExtractor (bp : backupParams) (today : String) : Extractor :=
  let backup := bp.backupTableID ++ "." ++ today
  let gcsURI := "gs://" ++ bp.storageBucket ++ "/" ++ bp.sourceDatasetID ++ "/" ++ backup
    ++ "/" ++ bp.backupTableID ++ "-*." ++ bp.destinationFormat.toLower
  { srcProjectID := bp.projectID
    srcDatasetID := bp.sourceDatasetID
    srcTableID := bp.backupTableID
    gcsRef :=
      { uri := gcsURI
        destinationFormat := bp.destinationFormat
        compression := bp.compressionType }
    disableHeader := true }

/-- `(bp *backupParams) runExtractor(ctx, extractor)`: submit the extract
job.  On a submission error the Go code overwrites `err` with the always-nil
`logError` result and returns `(nil, nil)`; on success it logs the job id
and returns the job. -/
def runExtractor (bp : backupParams) (env : Env) (logs : List LogEntry)
    (calls : List RemoteCall) :
    Option String × Option String × List LogEntry × List RemoteCall :=
  let calls := calls ++ [RemoteCall.extractorRun]
  match env.runResult with
  | .error e =>
    match logError logs ("Error starting backup of table " ++ bp.sourceDatasetID ++ "."
        ++ bp.backupTableID ++ " to cloud storage: " ++ e) with
    | (logs, some le) => (none, some le, logs, calls)
    | (logs, none) => (none, none, logs, calls)
  | .ok jobID =>
    match logInfo logs ("Backup of table " ++ bp.sourceDatasetID ++ "." ++ bp.backupTableID
        ++ " started successfully, jobID: " ++ jobID) with
    | (logs, some le) => (none, some le, logs, calls)
    | (logs, none) => (some jobID, none, logs, calls)

/-- `(bp *backupParams) waitForJob(ctx, job)`: wait for the job.  In both
failure branches the Go code shadows the wait/status error with the
always-nil result of `logError` and then executes `return true, err`, so
every branch returns `(true, nil)` after logging. -/
def waitForJob (bp : backupParams) (w : WaitOutcome) (logs : List LogEntry)
    (calls : List RemoteCall) :
    Bool × Option String × List LogEntry × List RemoteCall :=
  let calls := calls ++ [RemoteCall.jobWait]
  match w with
  | .waitErr e =>
    match logError logs ("Error waiting for backup of table " ++ bp.sourceDatasetID ++ "."
        ++ bp.backupTableID ++ " to cloud storage: " ++ e) with
    | (logs, some le) => (false, some le, logs, calls)
    | (logs, none) => (true, none, logs, calls)
  | .statusErr e =>
    match logError logs ("Error backing up table " ++ bp.sourceDatasetID ++ "."
        ++ bp.backupTableID ++ " to cloud storage: " ++ e) with
    | (logs, some le) => (false, some le, logs, calls)
    | (logs, none) => (true, none, logs, calls)
  | .success =>
    match logInfo logs ("Backup of table " ++ bp.sourceDatasetID ++ "." ++ bp.backupTableID
        ++ " completed successfully") with
    | (logs, some le) => (false, some le, logs, calls)
    | (logs, none) => (true, none, logs, calls)

/-- `(bp *backupParams) backupBigQueryTable(ctx)`: build the extractor, log
the start, submit the job and wait for it.  Returns `none` when the Go code
would dereference the nil job returned by `runExtractor`'s error path. -/
def backupBigQueryTable (bp : backupParams) (env : Env) (logs : List LogEntry)
    (calls : List RemoteCall) :
    Option (Bool × Option String) × List LogEntry × List RemoteCall :=
  let _extractor := setupExtractor bp env.today
  match logInfo logs ("Starting backup of table " ++ bp.sourceDatasetID ++ "."
      ++ bp.backupTableID ++ " to cloud storage") with
  | (logs, some le) => (some (false, some le), logs, calls)
  | (logs, none) =>
    match runExtractor bp env logs calls with
    | (job, err, logs, calls) =>
      match err with
      | some e => (some (false, some e), logs, calls)
      | none =>
        match job with
        | none => (none, logs, calls)
        | some _ =>
          match waitForJob bp env.waitResult logs calls with
          | (ok, werr, logs, calls) =>
            if ¬ok then
              (some (false, werr), logs, calls)
            else
              (some (true, none), logs, calls)

/-- Net observable outcome of one handler invocation: the log entries
written, the remote calls performed, and whether the Go code panicked. -/
structure HandlerResult where
  logs : List LogEntry
  calls : List RemoteCall
  panicked : Bool
deriving DecidableEq, Repr

/-- `bigQueryBackup(w, r)`: the HTTP handler.  `setLogger` and
`setBigQueryClient` always return nil (they only construct clients under
run-once guards), so the pipeline is: project id from the environment, then
`handleSetup`, `validateParams`, `checkBackupFormat` and
`backupBigQueryTable`, each failure returning early after logging. -/
def bigQueryBackup (env : Env) : HandlerResult :=
  let bp : backupParams := ⟨"", "", "", "", "", ""⟩
  match setProjectID bp env.gcpProject with
  | (_, some _) => ⟨[], [], false⟩
  | (bp, none) =>
    match handleSetup bp env [] with
    | (bp, hasError, logs) =>
      if hasError then ⟨logs, [], false⟩
      else
        match validateParams bp env logs [] with
        | (none, logs, calls) => ⟨logs, calls, true⟩
        | (some true, logs, calls) => ⟨logs, calls, false⟩
        | (some false, logs, calls) =>
          let fr := checkBackupFormat bp logs
          if ¬fr.ok ∨ fr.err.isSome then
            let r := logError fr.logs "Problem validating destination format"
            ⟨r.1, calls, false⟩
          else
            match backupBigQueryTable fr.bp env fr.logs calls with
            | (none, logs, calls) => ⟨logs, calls, true⟩
            | (some (ok, err), logs, calls) =>
              if ¬ok ∧ err.isSome then
                let r := logError logs "Problem backing up BigQuery table"
                ⟨r.1, calls, false⟩
              else
                ⟨logs, calls, false⟩

/-! ## Helper lemmas -/

/-- String concatenation is associative (helper for URI reassociation). -/
theorem string_append_assoc (a b c : String) : a ++ b ++ c = a ++ (b ++ c) := by
  apply String.ext
  cases a with | _ da => cases b with | _ db => cases c with | _ dc =>
  show (String.mk (da ++ db ++ dc)).data = _
  simp

/-- Characterization of the parameters produced by `checkBackupFormat`,
proved from the translated code: CSV/JSON force GZIP; AVRO/PARQUET default
an empty compression to SNAPPY and keep any non-empty one unchanged; any
other format resolves to AVRO with SNAPPY. -/
theorem checkBackupFormat_bp_eq (bp : backupParams) (logs : List LogEntry) :
    (checkBackupFormat bp logs).bp =
      if bp.destinationFormat = "CSV" ∨ bp.destinationFormat = "JSON" then
        { bp with compressionType := "GZIP" }
      else if bp.destinationFormat = "AVRO" ∨ bp.destinationFormat = "PARQUET" then
        (if bp.compressionType = "" then { bp with compressionType := "SNAPPY" } else bp)
      else
        { bp with destinationFormat := "AVRO", compressionType := "SNAPPY" } := by
  by_cases h1 : bp.destinationFormat = "CSV"
  · simp [checkBackupFormat, setCSVAndJSONCompression, logInfo, h1, csvFormat,
      gzipCompression]
  · by_cases h2 : bp.destinationFormat = "JSON"
    · simp [checkBackupFormat, setCSVAndJSONCompression, logInfo, h1, h2, csvFormat,
        jsonFormat, gzipCompression]
    · by_cases h3 : bp.destinationFormat = "AVRO"
      · by_cases hc : bp.compressionType = ""
        · simp [checkBackupFormat, setAvroParquetCompression, logInfo, h1, h2, h3, hc,
            csvFormat, jsonFormat, avroFormat, snappyCompression, deflateCompression]
        · simp [checkBackupFormat, setAvroParquetCompression, logInfo, h1, h2, h3, hc,
            csvFormat, jsonFormat, avroFormat, snappyCompression, deflateCompression]
      · by_cases h4 : bp.destinationFormat = "PARQUET"
        · by_cases hc : bp.compressionType = ""
          · simp [checkBackupFormat, setAvroParquetCompression, logInfo, h1, h2, h3, h4,
              hc, csvFormat, jsonFormat, avroFormat, parquetFormat, snappyCompression,
              deflateCompression]
          · simp [checkBackupFormat, setAvroParquetCompression, logInfo, h1, h2, h3, h4,
              hc, csvFormat, jsonFormat, avroFormat, parquetFormat, snappyCompression,
              deflateCompression]
        · simp [checkBackupFormat, h1, h2, h3, h4, csvFormat, jsonFormat, avroFormat,
            parquetFormat, snappyCompression]

/-- `checkBackupFormat` returns `(true, nil)` on every input, proved from
the translated code (the logging helpers always return nil). -/
theorem checkBackupFormat_ok_err (bp : backupParams) (logs : List LogEntry) :
    (checkBackupFormat bp logs).ok = true ∧ (checkBackupFormat bp logs).err = none := by
  by_cases h1 : bp.destinationFormat = "CSV"
  · simp [checkBackupFormat, setCSVAndJSONCompression, logInfo, h1, csvFormat]
  · by_cases h2 : bp.destinationFormat = "JSON"
    · simp [checkBackupFormat, setCSVAndJSONCompression, logInfo, h1, h2, csvFormat,
        jsonFormat]
    · by_cases h3 : bp.destinationFormat = "AVRO"
      · by_cases hc : bp.compressionType = ""
        · simp [checkBackupFormat, setAvroParquetCompression, logInfo, h1, h2, h3, hc,
            csvFormat, jsonFormat, avroFormat, snappyCompression, deflateCompression]
        · simp [checkBackupFormat, setAvroParquetCompression, logInfo, h1, h2, h3, hc,
            csvFormat, jsonFormat, avroFormat]
      · by_cases h4 : bp.destinationFormat = "PARQUET"
        · by_cases hc : bp.compressionType = ""
          · simp [checkBackupFormat, setAvroParquetCompression, logInfo, h1, h2, h3, h4,
              hc, csvFormat, jsonFormat, avroFormat, parquetFormat, snappyCompression,
              deflateCompression]
          · simp [checkBackupFormat, setAvroParquetCompression, logInfo, h1, h2, h3, h4,
              hc, csvFormat, jsonFormat, avroFormat, parquetFormat]
        · simp [checkBackupFormat, h1, h2, h3, h4, csvFormat, jsonFormat, avroFormat,
            parquetFormat]

/-! ## Claim theorems -/

/-- Claim C5: for every request with destination format exactly "CSV" or
"JSON", the resolved compression after `checkBackupFormat` is GZIP,
regardless of any caller-supplied compression value (including ZSTD). -/
theorem csv_json_forces_gzip (bp : backupParams) (logs : List LogEntry)
    (h : bp.destinationFormat = "CSV" ∨ bp.destinationFormat = "JSON") :
    (checkBackupFormat bp logs).bp.compressionType = "GZIP" := by
  rcases h with h | h <;> simp [checkBackupFormat_bp_eq, h]

/-- Witness for C5: format "CSV" with caller-supplied compression "ZSTD"
resolves to GZIP. -/
theorem csv_json_forces_gzip_witness :
    ((⟨"proj1", "sales", "orders", "backups-bucket", "ZSTD", "CSV"⟩ :
        backupParams).destinationFormat = "CSV" ∨
      (⟨"proj1", "sales", "orders", "backups-bucket", "ZSTD", "CSV"⟩ :
        backupParams).destinationFormat = "JSON") ∧
    (checkBackupFormat ⟨"proj1", "sales", "orders", "backups-bucket", "ZSTD", "CSV"⟩
        []).bp.compressionType = "GZIP" :=
  ⟨Or.inl rfl,
    csv_json_forces_gzip ⟨"proj1", "sales", "orders", "backups-bucket", "ZSTD", "CSV"⟩ []
      (Or.inl rfl)⟩

/-- Claim C6: for AVRO or PARQUET, an empty caller compression resolves to
SNAPPY, and a caller-supplied SNAPPY or DEFLATE is kept unchanged. -/
theorem avro_parquet_default_and_keep (bp : backupParams) (logs : List LogEntry)
    (h : bp.destinationFormat = "AVRO" ∨ bp.destinationFormat = "PARQUET") :
    (bp.compressionType = "" →
      (checkBackupFormat bp logs).bp.compressionType = "SNAPPY") ∧
    ((bp.compressionType = "SNAPPY" ∨ bp.compressionType = "DEFLATE") →
      (checkBackupFormat bp logs).bp.compressionType = bp.compressionType) := by
  constructor
  · intro hc
    rcases h with h | h <;> simp [checkBackupFormat_bp_eq, h, hc]
  · intro hc
    rcases h with h | h <;> rcases hc with hc | hc <;>
      simp [checkBackupFormat_bp_eq, h, hc]

/-- Witness for C6: format "AVRO" with empty compression resolves to
SNAPPY, and with "DEFLATE" keeps DEFLATE. -/
theorem avro_parquet_default_and_keep_witness :
    (checkBackupFormat ⟨"proj1", "sales", "orders", "backups-bucket", "", "AVRO"⟩
        []).bp.compressionType = "SNAPPY" ∧
    (checkBackupFormat ⟨"proj1", "sales", "orders", "backups-bucket", "DEFLATE", "AVRO"⟩
        []).bp.compressionType = "DEFLATE" :=
  ⟨(avro_parquet_default_and_keep
      ⟨"proj1", "sales", "orders", "backups-bucket", "", "AVRO"⟩ [] (Or.inl rfl)).1 rfl,
    (avro_parquet_default_and_keep
      ⟨"proj1", "sales", "orders", "backups-bucket", "DEFLATE", "AVRO"⟩ []
      (Or.inl rfl)).2 (Or.inr rfl)⟩

/-- Claim C7: any requested format outside CSV/JSON/AVRO/PARQUET (including
the empty string) resolves to AVRO with SNAPPY compression, and after
`checkBackupFormat` the destination format is always one of the four. -/
theorem unknown_format_resolves_avro_snappy :
    (∀ (bp : backupParams) (logs : List LogEntry),
        bp.destinationFormat ∉ (["CSV", "JSON", "AVRO", "PARQUET"] : List String) →
          (checkBackupFormat bp logs).bp.destinationFormat = "AVRO" ∧
          (checkBackupFormat bp logs).bp.compressionType = "SNAPPY") ∧
    (∀ (bp : backupParams) (logs : List LogEntry),
        (checkBackupFormat bp logs).bp.destinationFormat ∈
          (["CSV", "JSON", "AVRO", "PARQUET"] : List String)) := by
  constructor
  · intro bp logs h
    simp only [List.mem_cons, List.not_mem_nil, or_false, not_or] at h
    obtain ⟨h1, h2, h3, h4⟩ := h
    simp [checkBackupFormat_bp_eq, h1, h2, h3, h4]
  · intro bp logs
    rw [checkBackupFormat_bp_eq]
    by_cases h1 : bp.destinationFormat = "CSV"
    · simp [h1]
    · by_cases h2 : bp.destinationFormat = "JSON"
      · simp [h1, h2]
      · by_cases h3 : bp.destinationFormat = "AVRO"
        · by_cases hc : bp.compressionType = "" <;> simp [h1, h2, h3, hc]
        · by_cases h4 : bp.destinationFormat = "PARQUET"
          · by_cases hc : bp.compressionType = "" <;> simp [h1, h2, h3, h4, hc]
          · simp [h1, h2, h3, h4]

/-- Witness for C7: requested format "XML" resolves to AVRO with SNAPPY. -/
theorem unknown_format_resolves_avro_snappy_witness :
    (checkBackupFormat ⟨"proj1", "sales", "orders", "backups-bucket", "GZIP", "XML"⟩
        []).bp.destinationFormat = "AVRO" ∧
    (checkBackupFormat ⟨"proj1", "sales", "orders", "backups-bucket", "GZIP", "XML"⟩
        []).bp.compressionType = "SNAPPY" :=
  unknown_format_resolves_avro_snappy.1
    ⟨"proj1", "sales", "orders", "backups-bucket", "GZIP", "XML"⟩ [] (by decide)

/-- Claim C9: `checkBackupFormat` returns `ok = true` with a nil error on
every input, and the logging helpers it depends on always return nil, so
the handler's "Problem validating destination format" abort branch can
never be taken. -/
theorem checkBackupFormat_never_fails :
    (∀ (bp : backupParams) (logs : List LogEntry),
        (checkBackupFormat bp logs).ok = true ∧ (checkBackupFormat bp logs).err = none) ∧
    (∀ (logs : List LogEntry) (msg : String),
        (logInfo logs msg).2 = none ∧ (logError logs msg).2 = none) :=
  ⟨fun bp logs => checkBackupFormat_ok_err bp logs,
    fun _ _ => ⟨rfl, rfl⟩⟩

/-- Claim C10: `checkBackupFormat` is idempotent on the
(destinationFormat, compressionType) pair. -/
theorem checkBackupFormat_idempotent (bp : backupParams) (logs : List LogEntry) :
    (checkBackupFormat (checkBackupFormat bp logs).bp
        (checkBackupFormat bp logs).logs).bp.destinationFormat =
      (checkBackupFormat bp logs).bp.destinationFormat ∧
    (checkBackupFormat (checkBackupFormat bp logs).bp
        (checkBackupFormat bp logs).logs).bp.compressionType =
      (checkBackupFormat bp logs).bp.compressionType := by
  by_cases h1 : bp.destinationFormat = "CSV"
  · simp [checkBackupFormat_bp_eq, h1]
  · by_cases h2 : bp.destinationFormat = "JSON"
    · simp [checkBackupFormat_bp_eq, h1, h2]
    · by_cases h3 : bp.destinationFormat = "AVRO"
      · by_cases hc : bp.compressionType = "" <;>
          simp [checkBackupFormat_bp_eq, h1, h2, h3, hc]
      · by_cases h4 : bp.destinationFormat = "PARQUET"
        · by_cases hc : bp.compressionType = "" <;>
            simp [checkBackupFormat_bp_eq, h1, h2, h3, h4, hc]
        · simp [checkBackupFormat_bp_eq, h1, h2, h3, h4]

/-- Fully resolved parameters used to exercise the job-runner code path. -/
def bpResolved : backupParams :=
  ⟨"proj1", "sales", "orders", "backups-bucket", "SNAPPY", "AVRO"⟩

/-- Environment in which every step up to the export job succeeds, the job
is submitted (jobID "job123"), and the job then completes with an internal
failure status. -/
def envJobStatusErr : Env :=
  { gcpProject := "proj1"
    decodeResult := Except.ok ⟨"sales", "orders", "backups-bucket", "AVRO", "SNAPPY"⟩
    datasetMeta := Except.ok ⟨"proj1:sales"⟩
    tableMeta := Except.ok ⟨"proj1:sales.orders"⟩
    storageClient := Except.ok ()
    bucketAttrs := Except.ok ()
    runResult := Except.ok "job123"
    waitResult := WaitOutcome.statusErr "internalError"
    today := "2026-10-11" }

/-- Claim C1 (evaluation at the failing input): when a submitted job
completes with an internal failure status, `waitForJob` logs the failure
but returns `(true, nil)` — and `backupBigQueryTable` therefore returns
`(true, nil)` as well — i.e. the code reports a success outcome, not the
failure outcome the claim (and the function's own doc comment) state. -/
theorem waitForJob_internal_failure_returns_success :
    (waitForJob bpResolved (WaitOutcome.statusErr "internalError") [] []).1 = true ∧
    (waitForJob bpResolved (WaitOutcome.statusErr "internalError") [] []).2.1 = none ∧
    (waitForJob bpResolved (WaitOutcome.statusErr "internalError") [] []).2.2.1 =
      [⟨Severity.error,
        "Error backing up table sales.orders to cloud storage: internalError"⟩] ∧
    (backupBigQueryTable bpResolved envJobStatusErr [] []).1 = some (true, none) :=
  ⟨rfl, rfl, rfl, rfl⟩

/-- Claim C2 (evaluation at the failing input): for format AVRO with
caller-supplied compression "ZSTD" (non-empty, outside SNAPPY/DEFLATE),
`checkBackupFormat` keeps the compression as ZSTD instead of resetting it
to SNAPPY, and likewise for PARQUET. -/
theorem avro_zstd_compression_kept :
    (checkBackupFormat ⟨"proj1", "sales", "orders", "backups-bucket", "ZSTD", "AVRO"⟩
        []).bp.compressionType = "ZSTD" ∧
    (checkBackupFormat ⟨"proj1", "sales", "orders", "backups-bucket", "ZSTD", "AVRO"⟩
        []).bp.compressionType ≠ "SNAPPY" ∧
    (checkBackupFormat ⟨"proj1", "sales", "orders", "backups-bucket", "ZSTD", "PARQUET"⟩
        []).bp.compressionType = "ZSTD" :=
  ⟨rfl, by decide, rfl⟩

/-- Claim C3: `setupExtractor` builds the destination object URI exactly as
`gs://{bucket}/{dataset}/{table}.{today}/{table}-*.{lowercased format}`. -/
theorem setupExtractor_uri_pattern (bp : backupParams) (today : String) :
    (setupExtractor bp today).gcsRef.uri =
      "gs://" ++ bp.storageBucket ++ "/" ++ bp.sourceDatasetID ++ "/"
        ++ bp.backupTableID ++ "." ++ today ++ "/" ++ bp.backupTableID ++ "-*."
        ++ bp.destinationFormat.toLower := by
  simp [setupExtractor, string_append_assoc]

/-- Claim C8: dataset validation succeeds exactly when the metadata fetch
returns without error and the fully-qualified identifier equals
`{project}:{dataset}`; table validation succeeds exactly when the fetch
returns without error and the identifier equals
`{project}:{dataset}.{table}`.  A successful fetch returning an identifier
for a different project therefore fails validation. -/
theorem validate_fullid_exact_match :
    (∀ (bp : backupParams) (env : Env) (calls : List RemoteCall),
        ((validateDataset bp env calls).1 = true ∧
            (validateDataset bp env calls).2.1 = none) ↔
          ∃ md, env.datasetMeta = Except.ok md ∧
            md.FullID = bp.projectID ++ ":" ++ bp.sourceDatasetID) ∧
    (∀ (bp : backupParams) (env : Env) (calls : List RemoteCall),
        (validateTable bp env calls).1 = some (true, none) ↔
          ∃ md, env.tableMeta = Except.ok md ∧
            md.FullID =
              bp.projectID ++ ":" ++ bp.sourceDatasetID ++ "." ++ bp.backupTableID) := by
  constructor
  · intro bp env calls
    cases hm : env.datasetMeta with
    | error e => simp [validateDataset, hm]
    | ok md =>
      by_cases h : md.FullID = bp.projectID ++ ":" ++ bp.sourceDatasetID
      · simp [validateDataset, hm, h]
      · simp [validateDataset, hm, h]
  · intro bp env calls
    cases hm : env.tableMeta with
    | error e => simp [validateTable, hm]
    | ok md =>
      by_cases h : md.FullID = bp.projectID ++ ":" ++ bp.sourceDatasetID ++ "."
          ++ bp.backupTableID
      · simp [validateTable, hm, h]
      · simp [validateTable, hm, h]

/-- Claim C4: when the decoded body has an empty dataset name, table name
or bucket name, the handler performs no remote call at all, and the first
log entry is an Error naming the first empty field in the fixed order
dataset, table, bucket. -/
theorem missing_field_aborts_before_remote_calls (env : Env) (pb : postBodyParams)
    (hproj : ¬(env.gcpProject = "" ∨ trimSpace env.gcpProject = ""))
    (hdec : env.decodeResult = Except.ok pb)
    (hmiss : pb.DatasetName = "" ∨ pb.TableName = "" ∨ pb.StorageBucket = "") :
    (bigQueryBackup env).calls = [] ∧
      (bigQueryBackup env).logs.head? = some ⟨Severity.error,
        if pb.DatasetName = "" then "Missing DatasetName in Post Body"
        else if pb.TableName = "" then "Missing TableName in Post Body"
        else "Missing StorageBucket in Post Body"⟩ := by
  by_cases h1 : pb.DatasetName = ""
  · simp [bigQueryBackup, setProjectID, hproj, handleSetup, hdec, checkPostBody, h1,
      logError, fmtErr]
  · by_cases h2 : pb.TableName = ""
    · simp [bigQueryBackup, setProjectID, hproj, handleSetup, hdec, checkPostBody, h1,
        h2, logError, fmtErr]
    · have h3 : pb.StorageBucket = "" := by
        rcases hmiss with h | h | h
        · exact absurd h h1
        · exact absurd h h2
        · exact h
      simp [bigQueryBackup, setProjectID, hproj, handleSetup, hdec, checkPostBody, h1,
        h2, h3, logError, fmtErr]

/-- Environment whose decoded body has an empty dataset name (all remote
results irrelevant: they are never consulted). -/
def envMissingDataset : Env :=
  { gcpProject := "proj1"
    decodeResult := Except.ok ⟨"", "orders", "backups-bucket", "", ""⟩
    datasetMeta := Except.error "unused"
    tableMeta := Except.error "unused"
    storageClient := Except.error "unused"
    bucketAttrs := Except.error "unused"
    runResult := Except.error "unused"
    waitResult := WaitOutcome.success
    today := "2026-10-11" }

/-- Witness for C4: with dataset name empty, the handler makes no remote
call and the first log entry reports the missing dataset name. -/
theorem missing_field_aborts_before_remote_calls_witness :
    (bigQueryBackup envMissingDataset).calls = [] ∧
      (bigQueryBackup envMissingDataset).logs.head? =
        some ⟨Severity.error, "Missing DatasetName in Post Body"⟩ := by
  have h := missing_field_aborts_before_remote_calls envMissingDataset
    ⟨"", "orders", "backups-bucket", "", ""⟩ (by decide) rfl (Or.inl rfl)
  simpa using h

end BigQueryBackup
